import Mathlib

/-!
Verification development for the `imqfody` client library
(`src/imqfody/imqfody.py`).  The Python class `IMQFody` is shallowly
embedded: the HTTP transport is a black-box function from requests to
responses (as in the spec, section 1), the mutable `requests.Session`
becomes an explicit `Session` value threaded through the operations, and
each method returns its value-or-exception together with the updated
client and the ordered list of HTTP requests it issued.
-/

set_option autoImplicit false

/-- JSON values, the decoded response bodies. -/
inductive Json where
  | null
  | bool (b : Bool)
  | num (n : Int)
  | str (s : String)
  | arr (items : List Json)
  | obj (fields : List (String × Json))

/-- Python exceptions raised by the code.  The first three mirror the
dedicated `FodyError` subclasses declared at the top of the module
(`HTTPError` additionally records the status code that the raise site
interpolates into its message); the remaining three are builtin Python
exceptions (`KeyError`, `TypeError`, `IndexError`). -/
inductive PyError where
  | fodyHTTPError (status : Nat) (msg : String)
  | unknownHandler (msg : String)
  | unexpectedParameter (msg : String)
  | keyError (key : String)
  | typeError (msg : String)
  | indexError (msg : String)
  deriving DecidableEq, Repr

/-- Whether an exception is one of the dedicated error classes of the
module (subclasses of `FodyError`), as opposed to a builtin Python
exception such as `KeyError` or `TypeError`. -/
def PyError.isFodyError : PyError → Bool
  | .fodyHTTPError _ _ => true
  | .unknownHandler _ => true
  | .unexpectedParameter _ => true
  | .keyError _ => false
  | .typeError _ => false
  | .indexError _ => false

/-- A value placed into a query dictionary (the code uses strings and, for
`limit` and `id`, integers). -/
inductive PyVal where
  | s (v : String)
  | i (v : Int)
  deriving DecidableEq, Repr

/-- The `data=` payload handed to the HTTP library.  The code almost always
builds a dict (`mapping`); `search_national` builds a Python set literal
(`set`), which this type keeps distinct.  Python sets are unordered, so a
`set` payload is represented by its list of distinct elements. -/
inductive QueryPayload where
  | mapping (kvs : List (String × PyVal))
  | set (elems : List String)
  deriving DecidableEq, Repr

/-- An HTTP request as handed to the transport: method, URL, the headers
taken from the session at call time, and the body payload. -/
structure Request where
  method : String
  url : String
  headers : List (String × String)
  body : QueryPayload

/-- An HTTP response.  `jsonBody` is the JSON parse of `text`; the parser
itself is part of the black-box transport model, so a response carries its
decoded body alongside the raw text. -/
structure HTTPResponse where
  status : Nat
  text : String
  jsonBody : Json

/-- The backend, modelled as a total function from requests to responses
(spec section 1: `send(method, url, headers, body) -> (status, body)`). -/
def Backend := Request → HTTPResponse

/-- The `requests.Session` state the client owns: its persistent header
dict and the TLS-verification flag. -/
structure Session where
  headers : List (String × String)
  verify : Bool

/-- The `IMQFody` instance: base URL (already stripped of a trailing
slash by the constructor), the session, and the stored credentials. -/
structure Client where
  url : String
  session : Session
  credentials : String × String

/-- Outcome of running one method: the returned value or the Python
exception raised, the client afterwards, and the requests issued, in
order. -/
structure OpResult (α : Type) where
  result : Except PyError α
  client : Client
  trace : List Request

/-- Lookup in a header dict (first entry with the given key). -/
def lookupHeader : List (String × String) → String → Option String
  | [], _ => none
  | h :: rest, key => if h.1 = key then some h.2 else lookupHeader rest key

/-- Python `dict.update({k: v})` on a header dict: replaces the value at
`k` if present (keeping its position), otherwise appends the new entry. -/
def updateHeader (hs : List (String × String)) (k v : String) : List (String × String) :=
  if hs.any (fun p => p.1 == k) then hs.map (fun p => if p.1 = k then (k, v) else p)
  else hs ++ [(k, v)]

/-- Lookup in the field list of a JSON object. -/
def lookupField : List (String × Json) → String → Option Json
  | [], _ => none
  | f :: rest, key => if f.1 = key then some f.2 else lookupField rest key

/-- `value[key]` access used for checks of the form `"k" in d` followed by
`d["k"]` where the code relies on the body being a JSON object. -/
def Json.getField : Json → String → Option Json
  | .obj fields, key => lookupField fields key
  | _, _ => none

/-- Python subscript `value[key]` with a string key: a dict lookup raising
`KeyError` when the key is absent, a `TypeError` on non-dict values. -/
def Json.getItemStr : Json → String → Except PyError Json
  | .obj fields, key =>
      match lookupField fields key with
      | some v => .ok v
      | none => .error (.keyError key)
  | .arr _, _ => .error (.typeError "list indices must be integers or slices, not str")
  | .str _, _ => .error (.typeError "string indices must be integers")
  | _, _ => .error (.typeError "object is not subscriptable")

/-- Python iteration `for x in value`: lists yield their items, dicts their
keys, strings their characters; scalars are not iterable. -/
def Json.pyIter : Json → Except PyError (List Json)
  | .arr items => .ok items
  | .obj fields => .ok (fields.map fun f => Json.str f.1)
  | .str s => .ok (s.toList.map fun ch => Json.str (String.mk [ch]))
  | _ => .error (.typeError "object is not iterable")

/-- Python subscript `value[0]` as used by `get_event` on the decoded
body: first element of a list (`IndexError` when empty), `KeyError` on a
JSON object (whose keys are strings, never the integer 0), first character
of a string, `TypeError` on scalars. -/
def Json.getItem0 : Json → Except PyError Json
  | .arr [] => .error (.indexError "list index out of range")
  | .arr (x :: _) => .ok x
  | .obj _ => .error (.keyError "0")
  | .str s =>
      match s.toList with
      | [] => .error (.indexError "string index out of range")
      | ch :: _ => .ok (.str (String.mk [ch]))
  | _ => .error (.typeError "object is not subscriptable")

/-- Python `str(value)` / `"{}".format(value)` for the values that occur
as organisation ids.  Per the backend contract (spec section 6) ids are
scalars; the placeholder images for containers are never exercised. -/
def Json.pyStrFormat : Json → String
  | .str s => s
  | .num n => toString n
  | .bool b => if b then "True" else "False"
  | .null => "None"
  | .arr _ => "<list>"
  | .obj _ => "<dict>"

/-- `json.loads` as called by the code: on `response.text` it yields the
parse carried by the response; applied to the `Response` object itself
(as `get_api_documentation` does) it raises `TypeError`, since the Python
standard library accepts only `str`, `bytes` or `bytearray`. -/
inductive JsonLoadsArg where
  | ofText (r : HTTPResponse)
  | ofResponse (r : HTTPResponse)

def json_loads : JsonLoadsArg → Except PyError Json
  | .ofText r => .ok r.jsonBody
  | .ofResponse _ => .error (.typeError "the JSON object must be str, bytes or bytearray, not Response")

namespace IMQFody

/-- The POST request issued by `_login`. -/
def loginReq (c : Client) : Request :=
  { method := "POST"
    url := c.url ++ "/api/login"
    headers := c.session.headers
    body := .mapping [("username", .s c.credentials.1), ("password", .s c.credentials.2)] }

/-- `IMQFody._login`: POST to `{url}/api/login`; on non-200 raise
`HTTPError`; on a 200 body without `login_token` raise `KeyError`;
otherwise store the token in the session headers under `Authorization`.
The backend contract (spec section 6) makes `login_token` a string, on
which `pyStrFormat` is the identity. -/
def login (b : Backend) (c : Client) : OpResult Unit :=
  if (b (loginReq c)).status ≠ 200 then
    ⟨.error (.fodyHTTPError (b (loginReq c)).status
      ("Fody returned invalid HTTP response: " ++ toString (b (loginReq c)).status
        ++ " - " ++ (b (loginReq c)).text)), c, [loginReq c]⟩
  else
    match (b (loginReq c)).jsonBody.getField "login_token" with
    | none =>
        ⟨.error (.keyError "Fody API should have returned a login token, but hasn't."), c,
          [loginReq c]⟩
    | some tok =>
        ⟨.ok (),
          { c with session :=
            { c.session with
              headers := updateHeader c.session.headers "Authorization" tok.pyStrFormat } },
          [loginReq c]⟩

/-- The GET request issued by `_search`. -/
def searchReq (c : Client) (handler endpoint : String) (query : QueryPayload) : Request :=
  { method := "GET"
    url := c.url ++ "/api/" ++ handler ++ "/" ++ endpoint
    headers := c.session.headers
    body := query }

/-- `IMQFody._search`: reject handlers outside the whitelist before any
request; GET `{url}/api/{handler}/{endpoint}` with the query as body;
raise `HTTPError` on non-200; otherwise `json.loads(response.text)`. -/
def search (b : Backend) (c : Client) (handler endpoint : String) (query : QueryPayload) :
    OpResult Json :=
  if handler ∉ ["contactdb", "events", "tickets", "checkticket"] then
    ⟨.error (.unknownHandler "Handler must be one of [contactdb, events, tickets, checkticket]."),
      c, []⟩
  else if (b (searchReq c handler endpoint query)).status ≠ 200 then
    ⟨.error (.fodyHTTPError (b (searchReq c handler endpoint query)).status
      ("Fody returned " ++ toString (b (searchReq c handler endpoint query)).status ++ ": "
        ++ (b (searchReq c handler endpoint query)).text)), c,
      [searchReq c handler endpoint query]⟩
  else
    match json_loads (.ofText (b (searchReq c handler endpoint query))) with
    | .ok v => ⟨.ok v, c, [searchReq c handler endpoint query]⟩
    | .error e => ⟨.error e, c, [searchReq c handler endpoint query]⟩

/-- The organisation-resolution request for one id of one category. -/
def orgReq (c : Client) (category : String) (id : Json) : Request :=
  searchReq c "contactdb" ("org/" ++ category ++ "/" ++ id.pyStrFormat) (.mapping [])

/-- One `for` loop of `_get_contacts_from_id_list`: resolve each id of one
category through `_search`, appending the contacts in order and stopping
at the first exception. -/
def resolveCategory (b : Backend) (c : Client) (category : String) :
    List Json → Except PyError (List Json) × List Request
  | [] => (.ok [], [])
  | id :: rest =>
    let r := search b c "contactdb" ("org/" ++ category ++ "/" ++ id.pyStrFormat) (.mapping [])
    match r.result with
    | .error e => (.error e, r.trace)
    | .ok contact =>
      match resolveCategory b c category rest with
      | (.error e, tr) => (.error e, r.trace ++ tr)
      | (.ok contacts, tr) => (.ok (contact :: contacts), r.trace ++ tr)

/-- `IMQFody._get_contacts_from_id_list`: subscript `ids["manual"]`,
iterate it resolving each id, then subscript `ids["auto"]` and iterate it,
returning the flattened list (manual contacts first). -/
def getContactsFromIdList (b : Backend) (c : Client) (ids : Json) : OpResult (List Json) :=
  match ids.getItemStr "manual" with
  | .error e => ⟨.error e, c, []⟩
  | .ok manualVal =>
    match manualVal.pyIter with
    | .error e => ⟨.error e, c, []⟩
    | .ok manualIds =>
      match resolveCategory b c "manual" manualIds with
      | (.error e, trM) => ⟨.error e, c, trM⟩
      | (.ok manualContacts, trM) =>
        match ids.getItemStr "auto" with
        | .error e => ⟨.error e, c, trM⟩
        | .ok autoVal =>
          match autoVal.pyIter with
          | .error e => ⟨.error e, c, trM⟩
          | .ok autoIds =>
            match resolveCategory b c "auto" autoIds with
            | (.error e, trA) => ⟨.error e, c, trM ++ trA⟩
            | (.ok autoContacts, trA) =>
                ⟨.ok (manualContacts ++ autoContacts), c, trM ++ trA⟩

/-- `IMQFody.search_asn`: search `contactdb/searchasn` with
`{"asn": asn}`, then resolve the returned id list.  `_search` leaves the
session untouched, so the same client is threaded on. -/
def search_asn (b : Backend) (c : Client) (asn : String) : OpResult (List Json) :=
  let r := search b c "contactdb" "searchasn" (.mapping [("asn", .s asn)])
  match r.result with
  | .error e => ⟨.error e, c, r.trace⟩
  | .ok result =>
    let g := getContactsFromIdList b c result
    ⟨g.result, g.client, r.trace ++ g.trace⟩

/-- `IMQFody.search_national`: validate the country-code length first,
raising `UnexpectedParameter` before any request; then search
`contactdb/searchnational` passing the Python set literal
`{"countrycode", cc}` (a set, not a dict — its two elements collapse to
one when `cc` equals the string "countrycode"), and resolve the id
list. -/
def search_national (b : Backend) (c : Client) (cc : String) : OpResult (List Json) :=
  if cc.length < 2 ∨ cc.length > 3 then
    ⟨.error (.unexpectedParameter "Country code should be 2 or 3 letters long."), c, []⟩
  else
    let r := search b c "contactdb" "searchnational"
      (.set (if cc = "countrycode" then ["countrycode"] else ["countrycode", cc]))
    match r.result with
    | .error e => ⟨.error e, c, r.trace⟩
    | .ok result =>
      let g := getContactsFromIdList b c result
      ⟨g.result, g.client, r.trace ++ g.trace⟩

/-- The GET request issued by `get_event`. -/
def eventReq (c : Client) (id : Int) : Request :=
  { method := "GET"
    url := c.url ++ "/api/events"
    headers := c.session.headers
    body := .mapping [("id", .i id)] }

/-- `IMQFody.get_event`: direct GET to `{url}/api/events` bypassing
`_search`; on 200 return `response.json()[0]`, otherwise raise
`HTTPError`. -/
def get_event (b : Backend) (c : Client) (id : Int) : OpResult Json :=
  if (b (eventReq c id)).status = 200 then
    ⟨(b (eventReq c id)).jsonBody.getItem0, c, [eventReq c id]⟩
  else
    ⟨.error (.fodyHTTPError (b (eventReq c id)).status
      ("Statuscode " ++ toString (b (eventReq c id)).status ++ " while getting event by id.")),
      c, [eventReq c id]⟩

/-- The GET request issued by `get_ticket`. -/
def ticketReq (c : Client) (id : Int) : Request :=
  { method := "GET"
    url := c.url ++ "/api/tickets"
    headers := c.session.headers
    body := .mapping [("id", .i id)] }

/-- `IMQFody.get_ticket`: direct GET to `{url}/api/tickets`; on 200 return
the full decoded body `response.json()` (no `[0]`), otherwise raise
`HTTPError`. -/
def get_ticket (b : Backend) (c : Client) (id : Int) : OpResult Json :=
  if (b (ticketReq c id)).status = 200 then
    ⟨.ok (b (ticketReq c id)).jsonBody, c, [ticketReq c id]⟩
  else
    ⟨.error (.fodyHTTPError (b (ticketReq c id)).status
      ("Statuscode " ++ toString (b (ticketReq c id)).status ++ " while getting ticket by id.")),
      c, [ticketReq c id]⟩

/-- The GET request issued by `get_api_documentation` (bare base URL, no
payload). -/
def docReq (c : Client) : Request :=
  { method := "GET"
    url := c.url
    headers := c.session.headers
    body := .mapping [] }

/-- `IMQFody.get_api_documentation`: GET the base URL and apply
`json.loads` to the `Response` object itself (not to `response.text`). -/
def get_api_documentation (b : Backend) (c : Client) : OpResult Json :=
  ⟨json_loads (.ofResponse (b (docReq c))), c, [docReq c]⟩

end IMQFody

/-! Concrete fixtures used to exercise the operations. -/

/-- A client that already holds an auth header. -/
def c0 : Client :=
  { url := "http://fody"
    session := { headers := [("Authorization", "abc")], verify := true }
    credentials := ("user", "pass") }

/-- A freshly constructed client whose session has no headers yet. -/
def c1 : Client :=
  { url := "http://fody"
    session := { headers := [], verify := true }
    credentials := ("user", "pass") }

/-- A backend that answers every request with 200 and a `null` body. -/
def okBackend : Backend := fun _ => { status := 200, text := "", jsonBody := .null }

/-- Body table for the id-resolution scenario of the spec: `searchasn`
answers `{manual: [1, 2], auto: [3]}` and each organisation endpoint
answers `{id: N}`. -/
def stubBody1 : String → Json := fun url =>
  if url = "http://fody/api/contactdb/searchasn" then
    .obj [("manual", .arr [.num 1, .num 2]), ("auto", .arr [.num 3])]
  else if url = "http://fody/api/contactdb/org/manual/1" then .obj [("id", .num 1)]
  else if url = "http://fody/api/contactdb/org/manual/2" then .obj [("id", .num 2)]
  else if url = "http://fody/api/contactdb/org/auto/3" then .obj [("id", .num 3)]
  else .null

/-- The id-resolution backend: always 200, bodies from `stubBody1`. -/
def stubBackend1 : Backend := fun req =>
  { status := 200, text := "", jsonBody := stubBody1 req.url }

/-- A backend whose every response is `200` with body `{login_token: "abc"}`. -/
def tokenBackend : Backend := fun _ =>
  { status := 200, text := "", jsonBody := .obj [("login_token", .str "abc")] }

/-- A backend whose every response is `200` with body `{}`. -/
def emptyBodyBackend : Backend := fun _ =>
  { status := 200, text := "", jsonBody := .obj [] }

/-- A backend that refuses every request with `403 Forbidden`. -/
def err403Backend : Backend := fun _ =>
  { status := 403, text := "Forbidden", jsonBody := .null }

/-- A backend serving `[{id: 5}]` on the events URL and `{id: 5}` on the
tickets URL. -/
def eventTicketStub : Backend := fun req =>
  { status := 200, text := ""
    jsonBody :=
      if req.url = "http://fody/api/events" then .arr [.obj [("id", .num 5)]]
      else if req.url = "http://fody/api/tickets" then .obj [("id", .num 5)]
      else .null }

/-- The operations other than login leave the client (hence the session
header state) untouched, and every request they issue carries the
`Authorization` header value `tok`. -/
def opsPreserveAuth (b : Backend) (c : Client) (tok : String) : Prop :=
  (∀ handler endpoint q, (IMQFody.search b c handler endpoint q).client = c ∧
    ∀ req ∈ (IMQFody.search b c handler endpoint q).trace,
      lookupHeader req.headers "Authorization" = some tok) ∧
  (∀ ids, (IMQFody.getContactsFromIdList b c ids).client = c ∧
    ∀ req ∈ (IMQFody.getContactsFromIdList b c ids).trace,
      lookupHeader req.headers "Authorization" = some tok) ∧
  (∀ asn, (IMQFody.search_asn b c asn).client = c ∧
    ∀ req ∈ (IMQFody.search_asn b c asn).trace,
      lookupHeader req.headers "Authorization" = some tok) ∧
  (∀ cc, (IMQFody.search_national b c cc).client = c ∧
    ∀ req ∈ (IMQFody.search_national b c cc).trace,
      lookupHeader req.headers "Authorization" = some tok) ∧
  (∀ id, (IMQFody.get_event b c id).client = c ∧
    ∀ req ∈ (IMQFody.get_event b c id).trace,
      lookupHeader req.headers "Authorization" = some tok) ∧
  (∀ id, (IMQFody.get_ticket b c id).client = c ∧
    ∀ req ∈ (IMQFody.get_ticket b c id).trace,
      lookupHeader req.headers "Authorization" = some tok) ∧
  ((IMQFody.get_api_documentation b c).client = c ∧
    ∀ req ∈ (IMQFody.get_api_documentation b c).trace,
      lookupHeader req.headers "Authorization" = some tok)

/-! Helper lemmas. -/

theorem search_eq_ok (b : Backend) (c : Client) (handler endpoint : String) (q : QueryPayload)
    (hmem : handler ∈ (["contactdb", "events", "tickets", "checkticket"] : List String))
    (h200 : (b (IMQFody.searchReq c handler endpoint q)).status = 200) :
    IMQFody.search b c handler endpoint q
      = ⟨.ok (b (IMQFody.searchReq c handler endpoint q)).jsonBody, c,
          [IMQFody.searchReq c handler endpoint q]⟩ := by
  unfold IMQFody.search
  rw [if_neg (not_not_intro hmem), if_neg (not_not_intro h200)]
  rfl

theorem search_client_eq (b : Backend) (c : Client) (handler endpoint : String)
    (q : QueryPayload) : (IMQFody.search b c handler endpoint q).client = c := by
  unfold IMQFody.search
  by_cases hmem : handler ∉ (["contactdb", "events", "tickets", "checkticket"] : List String)
  · rw [if_pos hmem]
  · rw [if_neg hmem]
    by_cases hs : (b (IMQFody.searchReq c handler endpoint q)).status ≠ 200
    · rw [if_pos hs]
    · rw [if_neg hs]
      rfl

theorem search_trace_headers (b : Backend) (c : Client) (handler endpoint : String)
    (q : QueryPayload) :
    ∀ req ∈ (IMQFody.search b c handler endpoint q).trace,
      req.headers = c.session.headers := by
  intro req hreq
  unfold IMQFody.search at hreq
  by_cases hmem : handler ∉ (["contactdb", "events", "tickets", "checkticket"] : List String)
  · rw [if_pos hmem] at hreq
    simp at hreq
  · rw [if_neg hmem] at hreq
    by_cases hs : (b (IMQFody.searchReq c handler endpoint q)).status ≠ 200
    · rw [if_pos hs] at hreq
      simp at hreq
      subst hreq; rfl
    · rw [if_neg hs] at hreq
      simp [json_loads] at hreq
      subst hreq; rfl

theorem resolveCategory_trace_headers (b : Backend) (c : Client) (category : String)
    (ids : List Json) :
    ∀ req ∈ (IMQFody.resolveCategory b c category ids).2,
      req.headers = c.session.headers := by
  induction ids with
  | nil => intro req hreq; simp [IMQFody.resolveCategory] at hreq
  | cons id rest ih =>
    intro req hreq
    unfold IMQFody.resolveCategory at hreq
    rcases hr : (IMQFody.search b c "contactdb"
        ("org/" ++ category ++ "/" ++ id.pyStrFormat) (.mapping [])).result with e | contact
    · simp only [hr] at hreq
      exact search_trace_headers b c _ _ _ req hreq
    · rcases hrest : IMQFody.resolveCategory b c category rest with ⟨res, tr⟩
      simp only [hr, hrest] at hreq
      have ihtr : ∀ r ∈ tr, r.headers = c.session.headers := by
        intro r htr
        have := ih r
        rw [hrest] at this
        exact this htr
      rcases res with e | contacts
      all_goals
        simp only [List.mem_append] at hreq
        rcases hreq with hreq | hreq
        · exact search_trace_headers b c _ _ _ req hreq
        · exact ihtr req hreq

theorem getContacts_client_eq (b : Backend) (c : Client) (ids : Json) :
    (IMQFody.getContactsFromIdList b c ids).client = c := by
  unfold IMQFody.getContactsFromIdList
  repeat' split
  all_goals rfl

theorem getContacts_trace_headers (b : Backend) (c : Client) (ids : Json) :
    ∀ req ∈ (IMQFody.getContactsFromIdList b c ids).trace,
      req.headers = c.session.headers := by
  intro req hreq
  unfold IMQFody.getContactsFromIdList at hreq
  rcases h1 : ids.getItemStr "manual" with e | manualVal
  · simp only [h1] at hreq
    simp at hreq
  · simp only [h1] at hreq
    rcases h2 : manualVal.pyIter with e | manualIds
    · simp only [h2] at hreq
      simp at hreq
    · simp only [h2] at hreq
      rcases h3 : IMQFody.resolveCategory b c "manual" manualIds with ⟨resM, trM⟩
      simp only [h3] at hreq
      have hM : ∀ r ∈ trM, r.headers = c.session.headers := by
        intro r hr
        have := resolveCategory_trace_headers b c "manual" manualIds r
        rw [h3] at this
        exact this hr
      rcases resM with e | manualContacts
      · exact hM req hreq
      · rcases h4 : ids.getItemStr "auto" with e | autoVal
        · simp only [h4] at hreq
          exact hM req hreq
        · simp only [h4] at hreq
          rcases h5 : autoVal.pyIter with e | autoIds
          · simp only [h5] at hreq
            exact hM req hreq
          · simp only [h5] at hreq
            rcases h6 : IMQFody.resolveCategory b c "auto" autoIds with ⟨resA, trA⟩
            simp only [h6] at hreq
            have hA : ∀ r ∈ trA, r.headers = c.session.headers := by
              intro r hr
              have := resolveCategory_trace_headers b c "auto" autoIds r
              rw [h6] at this
              exact this hr
            rcases resA with e | autoContacts
            all_goals
              simp only [List.mem_append] at hreq
              rcases hreq with hreq | hreq
              · exact hM req hreq
              · exact hA req hreq

theorem search_asn_client_eq (b : Backend) (c : Client) (asn : String) :
    (IMQFody.search_asn b c asn).client = c := by
  unfold IMQFody.search_asn
  rcases hr : (IMQFody.search b c "contactdb" "searchasn"
      (.mapping [("asn", .s asn)])).result with e | result
  · simp only [hr]
  · simp only [hr]
    exact getContacts_client_eq b c result

theorem search_asn_trace_headers (b : Backend) (c : Client) (asn : String) :
    ∀ req ∈ (IMQFody.search_asn b c asn).trace, req.headers = c.session.headers := by
  intro req hreq
  unfold IMQFody.search_asn at hreq
  have hS : ∀ r ∈ (IMQFody.search b c "contactdb" "searchasn"
      (.mapping [("asn", .s asn)])).trace, r.headers = c.session.headers :=
    search_trace_headers b c _ _ _
  rcases hr : (IMQFody.search b c "contactdb" "searchasn"
      (.mapping [("asn", .s asn)])).result with e | result
  · simp only [hr] at hreq
    exact hS req hreq
  · simp only [hr] at hreq
    simp only [List.mem_append] at hreq
    rcases hreq with hreq | hreq
    · exact hS req hreq
    · exact getContacts_trace_headers b c result req hreq

theorem search_national_client_eq (b : Backend) (c : Client) (cc : String) :
    (IMQFody.search_national b c cc).client = c := by
  unfold IMQFody.search_national
  by_cases hl : cc.length < 2 ∨ cc.length > 3
  · rw [if_pos hl]
  · rw [if_neg hl]
    rcases hr : (IMQFody.search b c "contactdb" "searchnational"
        (.set (if cc = "countrycode" then ["countrycode"]
          else ["countrycode", cc]))).result with e | result
    · simp only [hr]
    · simp only [hr]
      exact getContacts_client_eq b c result

theorem search_national_trace_headers (b : Backend) (c : Client) (cc : String) :
    ∀ req ∈ (IMQFody.search_national b c cc).trace, req.headers = c.session.headers := by
  intro req hreq
  unfold IMQFody.search_national at hreq
  by_cases hl : cc.length < 2 ∨ cc.length > 3
  · rw [if_pos hl] at hreq
    simp at hreq
  · rw [if_neg hl] at hreq
    have hS : ∀ r ∈ (IMQFody.search b c "contactdb" "searchnational"
        (.set (if cc = "countrycode" then ["countrycode"]
          else ["countrycode", cc]))).trace, r.headers = c.session.headers :=
      search_trace_headers b c _ _ _
    rcases hr : (IMQFody.search b c "contactdb" "searchnational"
        (.set (if cc = "countrycode" then ["countrycode"]
          else ["countrycode", cc]))).result with e | result
    · simp only [hr] at hreq
      exact hS req hreq
    · simp only [hr] at hreq
      simp only [List.mem_append] at hreq
      rcases hreq with hreq | hreq
      · exact hS req hreq
      · exact getContacts_trace_headers b c result req hreq

theorem get_event_client_eq (b : Backend) (c : Client) (id : Int) :
    (IMQFody.get_event b c id).client = c := by
  unfold IMQFody.get_event
  split <;> rfl

theorem get_event_trace_headers (b : Backend) (c : Client) (id : Int) :
    ∀ req ∈ (IMQFody.get_event b c id).trace, req.headers = c.session.headers := by
  intro req hreq
  unfold IMQFody.get_event at hreq
  split at hreq <;> (simp at hreq; subst hreq; rfl)

theorem get_ticket_client_eq (b : Backend) (c : Client) (id : Int) :
    (IMQFody.get_ticket b c id).client = c := by
  unfold IMQFody.get_ticket
  split <;> rfl

theorem get_ticket_trace_headers (b : Backend) (c : Client) (id : Int) :
    ∀ req ∈ (IMQFody.get_ticket b c id).trace, req.headers = c.session.headers := by
  intro req hreq
  unfold IMQFody.get_ticket at hreq
  split at hreq <;> (simp at hreq; subst hreq; rfl)

theorem get_api_documentation_client_eq (b : Backend) (c : Client) :
    (IMQFody.get_api_documentation b c).client = c := rfl

theorem get_api_documentation_trace_headers (b : Backend) (c : Client) :
    ∀ req ∈ (IMQFody.get_api_documentation b c).trace,
      req.headers = c.session.headers := by
  intro req hreq
  simp [IMQFody.get_api_documentation] at hreq
  subst hreq
  rfl

theorem lookupHeader_map_update (hs : List (String × String)) (k v : String)
    (hany : hs.any (fun p => p.1 == k) = true) :
    lookupHeader (hs.map (fun p => if p.1 = k then (k, v) else p)) k = some v := by
  induction hs with
  | nil => simp at hany
  | cons p rest ih =>
    simp only [List.map_cons]
    by_cases hp : p.1 = k
    · simp [lookupHeader, hp]
    · simp only [List.any_cons, Bool.or_eq_true] at hany
      rcases hany with hany | hany
      · exact absurd (by simpa using hany) hp
      · simp only [if_neg hp, lookupHeader]
        exact ih hany

theorem lookupHeader_append_self (hs : List (String × String)) (k v : String)
    (hnone : hs.any (fun p => p.1 == k) = false) :
    lookupHeader (hs ++ [(k, v)]) k = some v := by
  induction hs with
  | nil => simp [lookupHeader]
  | cons p rest ih =>
    have hp : ¬ p.1 = k := by
      intro h
      rw [List.any_cons] at hnone
      simp [h] at hnone
    have hrest : rest.any (fun p => p.1 == k) = false := by
      rw [List.any_cons] at hnone
      simp only [Bool.or_eq_false_iff] at hnone
      exact hnone.2
    simp only [List.cons_append, lookupHeader]
    rw [if_neg hp]
    exact ih hrest

theorem lookupHeader_updateHeader (hs : List (String × String)) (k v : String) :
    lookupHeader (updateHeader hs k v) k = some v := by
  unfold updateHeader
  by_cases hany : hs.any (fun p => p.1 == k) = true
  · rw [if_pos hany]
    exact lookupHeader_map_update hs k v hany
  · rw [if_neg hany]
    exact lookupHeader_append_self hs k v (Bool.not_eq_true _ ▸ Bool.of_not_eq_true hany)

theorem opsPreserveAuth_of_lookupHeader (b : Backend) (c : Client) (tok : String)
    (h : lookupHeader c.session.headers "Authorization" = some tok) :
    opsPreserveAuth b c tok := by
  refine ⟨?_, ?_, ?_, ?_, ?_, ?_, ?_⟩
  · intro handler endpoint q
    exact ⟨search_client_eq b c handler endpoint q, fun req hreq => by
      rw [search_trace_headers b c handler endpoint q req hreq]; exact h⟩
  · intro ids
    exact ⟨getContacts_client_eq b c ids, fun req hreq => by
      rw [getContacts_trace_headers b c ids req hreq]; exact h⟩
  · intro asn
    exact ⟨search_asn_client_eq b c asn, fun req hreq => by
      rw [search_asn_trace_headers b c asn req hreq]; exact h⟩
  · intro cc
    exact ⟨search_national_client_eq b c cc, fun req hreq => by
      rw [search_national_trace_headers b c cc req hreq]; exact h⟩
  · intro id
    exact ⟨get_event_client_eq b c id, fun req hreq => by
      rw [get_event_trace_headers b c id req hreq]; exact h⟩
  · intro id
    exact ⟨get_ticket_client_eq b c id, fun req hreq => by
      rw [get_ticket_trace_headers b c id req hreq]; exact h⟩
  · exact ⟨get_api_documentation_client_eq b c, fun req hreq => by
      rw [get_api_documentation_trace_headers b c req hreq]; exact h⟩

theorem resolveCategory_ok (b : Backend) (c : Client) (category : String) (ids : List Json)
    (h200 : ∀ req, (b req).status = 200) :
    IMQFody.resolveCategory b c category ids
      = (.ok (ids.map fun id => (b (IMQFody.orgReq c category id)).jsonBody),
         ids.map fun id => IMQFody.orgReq c category id) := by
  induction ids with
  | nil => rfl
  | cons id rest ih =>
    unfold IMQFody.resolveCategory
    have hs := search_eq_ok b c "contactdb" ("org/" ++ category ++ "/" ++ id.pyStrFormat)
      (.mapping []) (by simp) (h200 _)
    simp only [hs, ih, List.map_cons, IMQFody.orgReq]
    rfl

theorem getContacts_ok (b : Backend) (c : Client) (fields : List (String × Json))
    (ms as : List Json)
    (hm : lookupField fields "manual" = some (.arr ms))
    (ha : lookupField fields "auto" = some (.arr as))
    (h200 : ∀ req, (b req).status = 200) :
    IMQFody.getContactsFromIdList b c (.obj fields)
      = ⟨.ok (ms.map (fun m => (b (IMQFody.orgReq c "manual" m)).jsonBody)
            ++ as.map (fun a => (b (IMQFody.orgReq c "auto" a)).jsonBody)), c,
          ms.map (IMQFody.orgReq c "manual") ++ as.map (IMQFody.orgReq c "auto")⟩ := by
  unfold IMQFody.getContactsFromIdList
  simp only [Json.getItemStr, hm, ha, Json.pyIter,
    resolveCategory_ok b c "manual" ms h200, resolveCategory_ok b c "auto" as h200]

/-! Claim theorems. -/

/-- C1: for every id-list response whose manual and auto fields are
present, contact resolution issues one contactdb lookup per id and
returns the flattened ordered sequence of results — all manual-id results
first, in the order the manual ids appear, followed by all auto-id
results in the order the auto ids appear. -/
theorem C1_resolution_order (b : Backend) (c : Client) (asn : String) (ms as : List Json)
    (h200 : ∀ req, (b req).status = 200)
    (hm : (b (IMQFody.searchReq c "contactdb" "searchasn"
        (.mapping [("asn", .s asn)]))).jsonBody.getField "manual" = some (.arr ms))
    (ha : (b (IMQFody.searchReq c "contactdb" "searchasn"
        (.mapping [("asn", .s asn)]))).jsonBody.getField "auto" = some (.arr as)) :
    (IMQFody.search_asn b c asn).result
      = .ok (ms.map (fun m => (b (IMQFody.orgReq c "manual" m)).jsonBody)
          ++ as.map (fun a => (b (IMQFody.orgReq c "auto" a)).jsonBody))
    ∧ (IMQFody.search_asn b c asn).trace
      = IMQFody.searchReq c "contactdb" "searchasn" (.mapping [("asn", .s asn)])
          :: (ms.map (IMQFody.orgReq c "manual") ++ as.map (IMQFody.orgReq c "auto")) := by
  rcases hbody : (b (IMQFody.searchReq c "contactdb" "searchasn"
      (.mapping [("asn", .s asn)]))).jsonBody with _ | bb | nn | ss | items | fields
  · rw [hbody] at hm; simp [Json.getField] at hm
  · rw [hbody] at hm; simp [Json.getField] at hm
  · rw [hbody] at hm; simp [Json.getField] at hm
  · rw [hbody] at hm; simp [Json.getField] at hm
  · rw [hbody] at hm; simp [Json.getField] at hm
  · rw [hbody] at hm
    rw [hbody] at ha
    simp only [Json.getField] at hm ha
    unfold IMQFody.search_asn
    have hs := search_eq_ok b c "contactdb" "searchasn" (.mapping [("asn", .s asn)])
      (by simp) (h200 _)
    simp only [hs, hbody]
    rw [getContacts_ok b c fields ms as hm ha h200]
    exact ⟨rfl, rfl⟩

/-- C1 witness: with a backend stub returning manual ids 1, 2 and auto
id 3 for searchasn and organisation bodies with matching ids,
searchAsn("1234") returns the three contacts in that exact order, after
one request per id in order. -/
theorem C1_resolution_order_witness :
    (IMQFody.search_asn stubBackend1 c0 "1234").result
      = .ok [.obj [("id", .num 1)], .obj [("id", .num 2)], .obj [("id", .num 3)]]
    ∧ (IMQFody.search_asn stubBackend1 c0 "1234").trace.map (fun r => r.url)
      = ["http://fody/api/contactdb/searchasn",
         "http://fody/api/contactdb/org/manual/1",
         "http://fody/api/contactdb/org/manual/2",
         "http://fody/api/contactdb/org/auto/3"] := by
  have h := C1_resolution_order stubBackend1 c0 "1234" [.num 1, .num 2] [.num 3]
    (fun _ => rfl) rfl rfl
  refine ⟨h.1, ?_⟩
  rw [h.2]
  rfl

/-- C2: after a successful login whose response body contains
login_token, the token is stored in the persistent header state of the
session, and every request issued through the session by the operations
carries the header Authorization with that token; no operation other
than login modifies the client (and with it the header state). -/
theorem C2_auth_header_invariant (b : Backend) (c : Client) (tok : String)
    (hstatus : (b (IMQFody.loginReq c)).status = 200)
    (htok : (b (IMQFody.loginReq c)).jsonBody.getField "login_token" = some (.str tok)) :
    (IMQFody.login b c).result = .ok ()
    ∧ lookupHeader (IMQFody.login b c).client.session.headers "Authorization" = some tok
    ∧ opsPreserveAuth b (IMQFody.login b c).client tok := by
  have hred : IMQFody.login b c
      = ⟨.ok (), { c with session := { c.session with
          headers := updateHeader c.session.headers "Authorization" tok } },
        [IMQFody.loginReq c]⟩ := by
    unfold IMQFody.login
    rw [if_neg (not_not_intro hstatus), htok]
    rfl
  rw [hred]
  exact ⟨rfl, lookupHeader_updateHeader c.session.headers "Authorization" tok,
    opsPreserveAuth_of_lookupHeader b _ tok
      (lookupHeader_updateHeader c.session.headers "Authorization" tok)⟩

/-- C2 witness: against a backend answering 200 with login_token "abc",
login on a fresh client stores the token and the operations keep issuing
it. -/
theorem C2_auth_header_invariant_witness :
    (IMQFody.login tokenBackend c1).result = .ok ()
    ∧ lookupHeader (IMQFody.login tokenBackend c1).client.session.headers "Authorization"
        = some "abc"
    ∧ opsPreserveAuth tokenBackend (IMQFody.login tokenBackend c1).client "abc" :=
  C2_auth_header_invariant tokenBackend c1 "abc" rfl rfl

/-- C3 counterexample: on a 200 login response with body lacking
login_token, the code raises the builtin Python KeyError — a generic
lookup-failure kind, not one of the dedicated FodyError classes — so the
claimed distinct MissingTokenError does not hold of the code. -/
theorem C3_counterexample :
    (IMQFody.login emptyBodyBackend c1).result
      = .error (.keyError "Fody API should have returned a login token, but hasn't.")
    ∧ PyError.isFodyError
        (.keyError "Fody API should have returned a login token, but hasn't.") = false :=
  ⟨rfl, rfl⟩

/-- C3 (amended): for every login response with HTTP status 200 whose
JSON body lacks the login_token field, login fails by raising the builtin
KeyError with an explanatory message — a generic lookup-failure kind, not
a dedicated error class — and the client is left unchanged. -/
theorem C3_missing_token_raises_builtin_keyerror (b : Backend) (c : Client)
    (hstatus : (b (IMQFody.loginReq c)).status = 200)
    (hmiss : (b (IMQFody.loginReq c)).jsonBody.getField "login_token" = none) :
    (IMQFody.login b c).result
      = .error (.keyError "Fody API should have returned a login token, but hasn't.")
    ∧ (IMQFody.login b c).client = c := by
  unfold IMQFody.login
  rw [if_neg (not_not_intro hstatus), hmiss]
  exact ⟨rfl, rfl⟩

/-- C3 witness: the amended claim at the concrete 200-with-empty-body
backend. -/
theorem C3_missing_token_raises_builtin_keyerror_witness :
    (IMQFody.login emptyBodyBackend c0).result
      = .error (.keyError "Fody API should have returned a login token, but hasn't.")
    ∧ (IMQFody.login emptyBodyBackend c0).client = c0 :=
  C3_missing_token_raises_builtin_keyerror emptyBodyBackend c0 rfl rfl

/-- C4: for every handler outside the fixed whitelist, search fails with
the dedicated UnknownHandler error and issues zero requests; for every
handler inside the whitelist no such error is raised and every issued
request has URL base/api/handler/endpoint. -/
theorem C4_handler_whitelist (b : Backend) (c : Client) (handler endpoint : String)
    (q : QueryPayload) :
    (handler ∉ (["contactdb", "events", "tickets", "checkticket"] : List String) →
      (IMQFody.search b c handler endpoint q).result
        = .error (.unknownHandler
            "Handler must be one of [contactdb, events, tickets, checkticket].")
      ∧ (IMQFody.search b c handler endpoint q).trace = [])
    ∧ (handler ∈ (["contactdb", "events", "tickets", "checkticket"] : List String) →
      (∀ msg, (IMQFody.search b c handler endpoint q).result
          ≠ .error (.unknownHandler msg))
      ∧ ∀ req ∈ (IMQFody.search b c handler endpoint q).trace,
          req.url = c.url ++ "/api/" ++ handler ++ "/" ++ endpoint) := by
  constructor
  · intro hnot
    unfold IMQFody.search
    rw [if_pos hnot]
    exact ⟨rfl, rfl⟩
  · intro hmem
    unfold IMQFody.search
    rw [if_neg (not_not_intro hmem)]
    by_cases hs : (b (IMQFody.searchReq c handler endpoint q)).status ≠ 200
    · rw [if_pos hs]
      refine ⟨fun msg h => ?_, fun req hreq => ?_⟩
      · exact PyError.noConfusion (Except.error.inj h)
      · have : req = IMQFody.searchReq c handler endpoint q := by simpa using hreq
        subst this
        rfl
    · rw [if_neg hs]
      refine ⟨fun msg h => ?_, fun req hreq => ?_⟩
      · exact Except.noConfusion h
      · have : req = IMQFody.searchReq c handler endpoint q := by
          simpa [json_loads] using hreq
        subst this
        rfl

/-- C4 witness: the handler "bogus" is rejected with UnknownHandler and no
request, while the whitelisted handler "contactdb" is never rejected and
its request URL is base/api/contactdb/ping. -/
theorem C4_handler_whitelist_witness :
    ("bogus" ∉ (["contactdb", "events", "tickets", "checkticket"] : List String))
    ∧ ((IMQFody.search okBackend c0 "bogus" "ping" (.mapping [])).result
        = .error (.unknownHandler
            "Handler must be one of [contactdb, events, tickets, checkticket].")
      ∧ (IMQFody.search okBackend c0 "bogus" "ping" (.mapping [])).trace = [])
    ∧ ("contactdb" ∈ (["contactdb", "events", "tickets", "checkticket"] : List String))
    ∧ ((∀ msg, (IMQFody.search okBackend c0 "contactdb" "ping" (.mapping [])).result
          ≠ .error (.unknownHandler msg))
      ∧ ∀ req ∈ (IMQFody.search okBackend c0 "contactdb" "ping" (.mapping [])).trace,
          req.url = c0.url ++ "/api/" ++ "contactdb" ++ "/" ++ "ping") :=
  ⟨by decide,
   (C4_handler_whitelist okBackend c0 "bogus" "ping" (.mapping [])).1 (by decide),
   by decide,
   (C4_handler_whitelist okBackend c0 "contactdb" "ping" (.mapping [])).2 (by decide)⟩

/-- C5: evaluating the code at the valid country code "DE" shows that
search_national hands the HTTP library the Python set literal with the
two elements "countrycode" and "DE" as the request payload, which is not
the key/value mapping binding the single key "countrycode" that the claim
states. -/
theorem C5_national_params_set_not_mapping :
    (IMQFody.search_national okBackend c0 "DE").trace
      = [IMQFody.searchReq c0 "contactdb" "searchnational"
          (QueryPayload.set ["countrycode", "DE"])]
    ∧ QueryPayload.set ["countrycode", "DE"]
        ≠ QueryPayload.mapping [("countrycode", PyVal.s "DE")] :=
  ⟨rfl, by decide⟩

/-- C6: for every country code whose length is less than 2 or greater
than 3, search_national fails with the dedicated UnexpectedParameter
error (named InvalidParameterError by the spec taxonomy) before any
request is issued. -/
theorem C6_invalid_country_code (b : Backend) (c : Client) (cc : String)
    (h : cc.length < 2 ∨ cc.length > 3) :
    (IMQFody.search_national b c cc).result
      = .error (.unexpectedParameter "Country code should be 2 or 3 letters long.")
    ∧ (IMQFody.search_national b c cc).trace = [] := by
  unfold IMQFody.search_national
  rw [if_pos h]
  exact ⟨rfl, rfl⟩

/-- C6 witness: the one-letter country code "X" is rejected with
UnexpectedParameter and zero requests. -/
theorem C6_invalid_country_code_witness :
    (IMQFody.search_national okBackend c0 "X").result
      = .error (.unexpectedParameter "Country code should be 2 or 3 letters long.")
    ∧ (IMQFody.search_national okBackend c0 "X").trace = [] :=
  C6_invalid_country_code okBackend c0 "X" (by decide)

/-- C7: for every login response with a non-200 status, login fails with
HTTPError carrying that status code, and the client — in particular its
session header state — is left unchanged. -/
theorem C7_login_non200 (b : Backend) (c : Client)
    (h : (b (IMQFody.loginReq c)).status ≠ 200) :
    (IMQFody.login b c).result
      = .error (.fodyHTTPError (b (IMQFody.loginReq c)).status
          ("Fody returned invalid HTTP response: "
            ++ toString (b (IMQFody.loginReq c)).status
            ++ " - " ++ (b (IMQFody.loginReq c)).text))
    ∧ (IMQFody.login b c).client = c := by
  unfold IMQFody.login
  rw [if_pos h]
  exact ⟨rfl, rfl⟩

/-- C7 witness: a 403 login response fails with HTTPError carrying 403
and stores no token. -/
theorem C7_login_non200_witness :
    (IMQFody.login err403Backend c1).result
      = .error (.fodyHTTPError 403 "Fody returned invalid HTTP response: 403 - Forbidden")
    ∧ (IMQFody.login err403Backend c1).client = c1 :=
  C7_login_non200 err403Backend c1 (by decide)

/-- C8 counterexample: when the manual key is absent, contact resolution
raises the builtin Python KeyError — a generic lookup failure, not a
dedicated DecodeError kind (no such class exists in the code) — so the
claim as stated does not hold of the code. -/
theorem C8_counterexample :
    (IMQFody.getContactsFromIdList okBackend c0 (.obj [])).result
      = .error (.keyError "manual")
    ∧ PyError.isFodyError (.keyError "manual") = false :=
  ⟨rfl, rfl⟩

/-- C8 (amended): for every search response in which the manual key is
absent, resolution fails immediately with the builtin KeyError naming
"manual" and issues no request; when manual is present (a list) and auto
is absent, it fails with the builtin KeyError naming "auto" — in neither
case a silent default, but a generic lookup failure rather than a
dedicated DecodeError. -/
theorem C8_missing_keys_raise_builtin_keyerror (b : Backend) (c : Client)
    (fields : List (String × Json)) :
    (lookupField fields "manual" = none →
      (IMQFody.getContactsFromIdList b c (.obj fields)).result
        = .error (.keyError "manual")
      ∧ (IMQFody.getContactsFromIdList b c (.obj fields)).trace = [])
    ∧ (∀ ms, lookupField fields "manual" = some (.arr ms) →
        lookupField fields "auto" = none →
        (∀ req, (b req).status = 200) →
        (IMQFody.getContactsFromIdList b c (.obj fields)).result
          = .error (.keyError "auto")) := by
  constructor
  · intro hm
    unfold IMQFody.getContactsFromIdList
    simp only [Json.getItemStr, hm]
    exact ⟨trivial, trivial⟩
  · intro ms hm ha h200
    unfold IMQFody.getContactsFromIdList
    simp only [Json.getItemStr, hm, ha, Json.pyIter,
      resolveCategory_ok b c "manual" ms h200]

/-- C8 witness: the amended claim at concrete inputs — an id list with no
keys fails with KeyError "manual" and no request; one with only an empty
manual list fails with KeyError "auto". -/
theorem C8_missing_keys_raise_builtin_keyerror_witness :
    ((IMQFody.getContactsFromIdList okBackend c1 (.obj [])).result
        = .error (.keyError "manual")
      ∧ (IMQFody.getContactsFromIdList okBackend c1 (.obj [])).trace = [])
    ∧ (IMQFody.getContactsFromIdList okBackend c1
        (.obj [("manual", .arr [])])).result = .error (.keyError "auto") :=
  ⟨(C8_missing_keys_raise_builtin_keyerror okBackend c1 []).1 rfl,
   (C8_missing_keys_raise_builtin_keyerror okBackend c1 [("manual", .arr [])]).2
     [] rfl rfl (fun _ => rfl)⟩

/-- C9: on a 200 response get_event returns the first element of the
decoded JSON array (not the array), get_ticket returns the full decoded
body unmodified; on any non-200 response both fail with HTTPError. -/
theorem C9_event_ticket_asymmetry (b : Backend) (c : Client) (id : Int) :
    ((b (IMQFody.eventReq c id)).status = 200 →
      ∀ x xs, (b (IMQFody.eventReq c id)).jsonBody = .arr (x :: xs) →
        (IMQFody.get_event b c id).result = .ok x)
    ∧ ((b (IMQFody.ticketReq c id)).status = 200 →
        (IMQFody.get_ticket b c id).result = .ok (b (IMQFody.ticketReq c id)).jsonBody)
    ∧ ((b (IMQFody.eventReq c id)).status ≠ 200 →
        (IMQFody.get_event b c id).result
          = .error (.fodyHTTPError (b (IMQFody.eventReq c id)).status
              ("Statuscode " ++ toString (b (IMQFody.eventReq c id)).status
                ++ " while getting event by id.")))
    ∧ ((b (IMQFody.ticketReq c id)).status ≠ 200 →
        (IMQFody.get_ticket b c id).result
          = .error (.fodyHTTPError (b (IMQFody.ticketReq c id)).status
              ("Statuscode " ++ toString (b (IMQFody.ticketReq c id)).status
                ++ " while getting ticket by id."))) := by
  refine ⟨?_, ?_, ?_, ?_⟩
  · intro h x xs hbody
    unfold IMQFody.get_event
    rw [if_pos h, hbody]
    rfl
  · intro h
    unfold IMQFody.get_ticket
    rw [if_pos h]
  · intro h
    unfold IMQFody.get_event
    rw [if_neg (fun heq => h heq)]
  · intro h
    unfold IMQFody.get_ticket
    rw [if_neg (fun heq => h heq)]

/-- C9 witness: a stub serving the array with one element with id 5 on
the events URL and the bare object with id 5 on the tickets URL yields
the element for get_event and the object for get_ticket; a 403 backend
makes both fail with HTTPError carrying 403. -/
theorem C9_event_ticket_asymmetry_witness :
    (IMQFody.get_event eventTicketStub c0 5).result = .ok (.obj [("id", .num 5)])
    ∧ (IMQFody.get_ticket eventTicketStub c0 5).result = .ok (.obj [("id", .num 5)])
    ∧ (IMQFody.get_event err403Backend c0 5).result
        = .error (.fodyHTTPError 403 "Statuscode 403 while getting event by id.")
    ∧ (IMQFody.get_ticket err403Backend c0 5).result
        = .error (.fodyHTTPError 403 "Statuscode 403 while getting ticket by id.") :=
  ⟨(C9_event_ticket_asymmetry eventTicketStub c0 5).1 rfl (.obj [("id", .num 5)]) [] rfl,
   (C9_event_ticket_asymmetry eventTicketStub c0 5).2.1 rfl,
   (C9_event_ticket_asymmetry err403Backend c0 5).2.2.1 (by decide),
   (C9_event_ticket_asymmetry err403Backend c0 5).2.2.2 (by decide)⟩

/-- C10: for every backend response, get_api_documentation never returns
a decoded documentation value: it always raises TypeError, because
json.loads is applied to the HTTP response object itself rather than to
the response body text. -/
theorem C10_api_documentation_always_raises (b : Backend) (c : Client) :
    (IMQFody.get_api_documentation b c).result
      = .error (.typeError
          "the JSON object must be str, bytes or bytearray, not Response") :=
  rfl
